import Mathlib

/-!
# Settlement & Ledger Engine — verification development

Shallow embedding of the hive-exchange-bot settlement core:
the transaction record model and balance fold (models/Transaction),
deposit verification and withdrawal processing (services/blockchain),
the deposit-intent map and command handlers (bots/user-bot),
exchange administration (services/exchange, bots/admin-bot),
amount formatting/parsing (utils/format, utils/validation),
and fiat conversion (models/ExchangeRate).

Token money lives in DECIMAL(24,6) columns and is handled with
decimal.js (exact decimal arithmetic); such values are embedded as
integers counting micro-USDT (1 USDT = 1,000,000 units), on which
decimal.js addition, subtraction and comparison are exact and
`toFixed(6)` is the identity rendering.  Quantities that are not
confined to the six-digit grid — the formatter and parser inputs and
the one floating-point conversion path — are embedded as exact
rationals.  Timestamps are integer milliseconds.  Addresses and hashes
are strings, assumed already case-normalized (the source lower-cases
both sides before comparing).
-/

namespace HiveBot

/-- Decimal.js `toFixed d` with ROUND_HALF_UP on non-negative values:
round to `d` fractional digits, ties away from zero. -/
def roundHalfUpAt (d : ℕ) (q : ℚ) : ℚ :=
  (⌊q * (10 : ℚ) ^ d + 1 / 2⌋ : ℚ) / (10 : ℚ) ^ d

/-- Value representable with at most six fractional decimal digits —
what the DECIMAL(24,6) `amount` column stores. -/
def IsMicro (q : ℚ) : Prop :=
  ∃ m : ℤ, q = (m : ℚ) / 1000000

/-- The rational a micro-USDT integer denotes. -/
def microToRat (m : ℤ) : ℚ :=
  (m : ℚ) / 1000000

/-- Transaction `type` enum of models/Transaction. -/
inductive TxType
  | deposit
  | withdrawal
  | exchange
deriving DecidableEq, BEq

/-- Transaction `status` enum of models/Transaction. -/
inductive TxStatus
  | pending
  | completed
  | failed
  | processing
deriving DecidableEq, BEq

instance : LawfulBEq TxType where
  eq_of_beq := by intro a b h; cases a <;> cases b <;> first | rfl | exact Bool.noConfusion h
  rfl := by intro a; cases a <;> rfl

instance : LawfulBEq TxStatus where
  eq_of_beq := by intro a b h; cases a <;> cases b <;> first | rfl | exact Bool.noConfusion h
  rfl := by intro a; cases a <;> rfl

/-- One row of the `transactions` table (models/Transaction).
Token amounts (`amount`, `fee`) are micro-USDT integers; the fiat
amount keeps its exact decimal value.  `completedAt` is modelled as
presence of the timestamp. -/
structure Transaction where
  id : ℕ
  txType : TxType
  chatId : String
  amount : ℤ
  fiatAmount : Option ℚ := none
  fiatType : Option String := none
  walletAddress : Option String := none
  txHash : Option String := none
  status : TxStatus := .pending
  completedAt : Bool := false
  fee : Option ℤ := none
  confirmations : Option ℤ := none
  adminNotes : Option String := none
deriving DecidableEq, BEq

/-- Sum of the amounts of a list of rows, as the source folds with
`sum.plus(tx.amount)` from `new Decimal(0)`. -/
def sumAmounts (txs : List Transaction) : ℤ :=
  txs.foldl (fun s t => s + t.amount) 0

/-- Transaction.getUserBalance (models/Transaction): completed deposits,
minus withdrawals in status completed/pending/processing, minus
exchanges in status completed/pending/processing; a negative result is
clamped to the zero string, otherwise the balance is rendered with
`toFixed(6)`, which is exact on the six-digit grid. -/
def getUserBalance (txs : List Transaction) (chatId : String) : ℤ :=
  let deposits := txs.filter fun t =>
    t.chatId == chatId && t.txType == .deposit && t.status == .completed
  let withdrawals := txs.filter fun t =>
    t.chatId == chatId && t.txType == .withdrawal &&
      (t.status == .completed || t.status == .pending || t.status == .processing)
  let exchanges := txs.filter fun t =>
    t.chatId == chatId && t.txType == .exchange &&
      (t.status == .completed || t.status == .pending || t.status == .processing)
  let balance := sumAmounts deposits - sumAmounts withdrawals - sumAmounts exchanges
  if balance < 0 then 0 else balance

/-- Spec-side sum: amounts of the account's Completed Deposit records. -/
def specCompletedDeposits (txs : List Transaction) (chatId : String) : ℤ :=
  ((txs.filter fun t =>
    t.chatId == chatId && t.txType == .deposit && t.status == .completed).map
      (fun t => t.amount)).sum

/-- Spec-side sum: amounts of the account's Withdrawal records with
status in the set containing Completed, Processing and Pending. -/
def specOutgoingWithdrawals (txs : List Transaction) (chatId : String) : ℤ :=
  ((txs.filter fun t =>
    t.chatId == chatId && t.txType == .withdrawal &&
      (t.status == .completed || t.status == .pending || t.status == .processing)).map
      (fun t => t.amount)).sum

/-- Spec-side sum: amounts of the account's Exchange records with
status in the set containing Completed, Processing and Pending. -/
def specOutgoingExchanges (txs : List Transaction) (chatId : String) : ℤ :=
  ((txs.filter fun t =>
    t.chatId == chatId && t.txType == .exchange &&
      (t.status == .completed || t.status == .pending || t.status == .processing)).map
      (fun t => t.amount)).sum

/-- Spec-side raw balance before clamping. -/
def specRawBalance (txs : List Transaction) (chatId : String) : ℤ :=
  specCompletedDeposits txs chatId - specOutgoingWithdrawals txs chatId -
    specOutgoingExchanges txs chatId

/-! ## Deposit verification (services/blockchain: verifyDepositTransaction) -/

/-- One successfully parsed log entry of a receipt: the event name, the
emitting contract address, and the decoded Transfer arguments. -/
structure TransferLog where
  name : String
  address : String
  fromAddr : String
  toAddr : String
  value : ℤ
deriving DecidableEq, BEq

/-- Transaction receipt as read from the provider. -/
structure Receipt where
  blockNumber : ℤ
  logs : List TransferLog
deriving DecidableEq, BEq

/-- Blockchain configuration (config/config: blockchain + transactions). -/
structure ChainConfig where
  usdtContractAddress : String
  depositAddress : String
  minConfirmations : ℤ
deriving DecidableEq, BEq

/-- What the chain currently answers for one transaction hash. -/
structure ChainState where
  receipt : Option Receipt
  currentBlock : ℤ
deriving DecidableEq, BEq

/-- Outcome of verifyDepositTransaction; constructors mirror the
distinct reason strings of the source in source order. -/
inductive VerifyResult
  | notFound
  | insufficientConfirmations (got required : ℤ)
  | noTransferEvent
  | wrongRecipient
  | amountMismatch (expected got : ℤ)
  | ok (amount : ℤ) (confirmations : ℤ)
deriving DecidableEq, BEq

/-- verifyDepositTransaction (services/blockchain): receipt lookup,
confirmation depth, first USDT Transfer log, recipient check, exact
decimal amount equality (decimal.js `equals` on the two amounts). -/
def verifyDepositTransaction (cfg : ChainConfig) (chain : ChainState)
    (expectedAmount : ℤ) : VerifyResult :=
  match chain.receipt with
  | none => .notFound
  | some receipt =>
    let confirmations := chain.currentBlock - receipt.blockNumber
    if confirmations < cfg.minConfirmations then
      .insufficientConfirmations confirmations cfg.minConfirmations
    else
      match (receipt.logs.filter fun l =>
          l.name == "Transfer" && l.address == cfg.usdtContractAddress).head? with
      | none => .noTransferEvent
      | some ev =>
        if ev.toAddr != cfg.depositAddress then .wrongRecipient
        else if ev.value != expectedAmount then .amountMismatch expectedAmount ev.value
        else .ok ev.value confirmations

/-! ## Deposit intents and the /confirm handler (bots/user-bot) -/

/-- Entry of the depositRequests map: expected amount and creation time
in milliseconds. -/
structure DepositRequest where
  amount : ℤ
  timestamp : ℤ
deriving DecidableEq, BEq

/-- Combined bot-visible store: the in-memory depositRequests map and
the transactions table. -/
structure BotState where
  depositRequests : List (String × DepositRequest)
  transactions : List Transaction
deriving DecidableEq, BEq

/-- Map.delete on the association list. -/
def eraseRequest (m : List (String × DepositRequest)) (chatId : String) :
    List (String × DepositRequest) :=
  m.filter fun p => p.1 != chatId

/-- Next autoIncrement primary key of the transactions table. -/
def nextId (txs : List Transaction) : ℕ :=
  txs.foldl (fun m t => max m t.id) 0 + 1

/-- Outcome of the /confirm handler. -/
inductive ConfirmResult
  | invalidHashFormat
  | noActiveRequest
  | requestExpired
  | verificationFailed (r : VerifyResult)
  | ok (txId : ℕ) (amount : ℤ)
deriving DecidableEq, BEq

/-- The /confirm txHash handler (bots/user-bot): hash format check,
active request lookup, 24-hour expiry with lazy delete, chain
verification, then createDeposit immediately updated to completed with
txHash, completedAt and confirmations set, and the request cleared.
`hashValid` is the result of validation.isValidTxHash on the raw hash. -/
def confirmHandler (cfg : ChainConfig) (chain : ChainState) (hashValid : Bool)
    (txHash chatId : String) (now : ℤ) (st : BotState) : ConfirmResult × BotState :=
  if !hashValid then (.invalidHashFormat, st)
  else
    match st.depositRequests.lookup chatId with
    | none => (.noActiveRequest, st)
    | some req =>
      if now - req.timestamp > 24 * 60 * 60 * 1000 then
        (.requestExpired, { st with depositRequests := eraseRequest st.depositRequests chatId })
      else
        match verifyDepositTransaction cfg chain req.amount with
        | .ok _ conf =>
          let newTx : Transaction :=
            { id := nextId st.transactions
              txType := .deposit
              chatId := chatId
              amount := req.amount
              txHash := some txHash
              status := .completed
              completedAt := true
              confirmations := some conf }
          (.ok newTx.id req.amount,
            { depositRequests := eraseRequest st.depositRequests chatId
              transactions := st.transactions ++ [newTx] })
        | r => (.verificationFailed r, st)

/-! ## Withdrawal processing (services/blockchain: processWithdrawal) -/

/-- Outcomes of each chain call processWithdrawal makes, in order:
parseTokenAmount, getFeeData, estimateGas, the transfer submission
(returning the transaction hash), and tx.wait. -/
structure ChainOps where
  parseAmount : Except String Unit
  feeData : Except String Unit
  estimateGas : Except String Unit
  submit : Except String String
  waitMined : Except String Unit

/-- Result object of processWithdrawal. -/
inductive WithdrawOutcome
  | success (txHash : String)
  | failure (error : String)
deriving DecidableEq, BEq

/-- Failure path of processWithdrawal: status failed, reason recorded
in adminNotes, error returned to the caller. -/
def withdrawFail (t : Transaction) (msg : String) : WithdrawOutcome × Transaction :=
  (.failure msg, { t with status := .failed, adminNotes := some ("Failed: " ++ msg) })

/-- processWithdrawal (services/blockchain): unconditionally sets the
record to processing, runs the chain steps, persists the hash on
submission, and on mining marks completed with completedAt and one
confirmation; any thrown error lands in the catch block
(`withdrawFail`).  There is no check of the prior status. -/
def processWithdrawal (ops : ChainOps) (t : Transaction) : WithdrawOutcome × Transaction :=
  let t1 : Transaction := { t with status := .processing }
  match ops.parseAmount with
  | .error e => withdrawFail t1 e
  | .ok _ =>
  match ops.feeData with
  | .error e => withdrawFail t1 e
  | .ok _ =>
  match ops.estimateGas with
  | .error e => withdrawFail t1 e
  | .ok _ =>
  match ops.submit with
  | .error e => withdrawFail t1 e
  | .ok h =>
  let t2 : Transaction := { t1 with txHash := some h }
  match ops.waitMined with
  | .error e => withdrawFail t2 e
  | .ok _ =>
    (.success h,
      { t2 with status := .completed, completedAt := true, confirmations := some 1 })

/-- Chain oracle on which every step succeeds and submission returns
the given hash. -/
def allOk (h : String) : ChainOps :=
  { parseAmount := .ok ()
    feeData := .ok ()
    estimateGas := .ok ()
    submit := .ok h
    waitMined := .ok () }

/-- Outcome of the /withdraw handler. -/
inductive WithdrawRequestResult
  | insufficientBalance
  | failed (error : String)
  | ok (txHash : String)
deriving DecidableEq, BEq

/-- The /withdraw amount,walletAddress handler (bots/user-bot): balance
check against amount plus the configured fee, creation of a pending
withdrawal record carrying the fee, then processWithdrawal; the record
ends stored in whatever state processing left it. -/
def withdrawHandler (ops : ChainOps) (txs : List Transaction)
    (chatId : String) (amount : ℤ) (walletAddress : String) (fee : ℤ) :
    WithdrawRequestResult × List Transaction :=
  let balance := getUserBalance txs chatId
  let totalAmount := amount + fee
  if balance < totalAmount then (.insufficientBalance, txs)
  else
    let newTx : Transaction :=
      { id := nextId txs
        txType := .withdrawal
        chatId := chatId
        amount := amount
        walletAddress := some walletAddress
        fee := some fee }
    match processWithdrawal ops newTx with
    | (.failure e, t) => (.failed e, txs ++ [t])
    | (.success h, t) => (.ok h, txs ++ [t])

/-! ## Exchange requests and administration (services/exchange, bots/admin-bot) -/

/-- Singleton exchange-rate record. -/
structure ExchangeRates where
  rateUSD : ℚ
  rateUAH : ℚ
deriving DecidableEq, BEq

/-- Default rates of config/config. -/
def defaultRates : ExchangeRates :=
  { rateUSD := 1, rateUAH := 395 / 10 }

/-- Rate selection shared by the exchange paths:
USD picks rateUSD, anything else rateUAH. -/
def pickRate (rates : ExchangeRates) (fiatType : String) : ℚ :=
  if fiatType == "USD" then rates.rateUSD else rates.rateUAH

/-- Outcome of processExchangeRequest. -/
inductive ExchangeRequestResult
  | insufficientBalance
  | ok (txId : ℕ) (fiatAmount : ℚ)
deriving DecidableEq, BEq

/-- processExchangeRequest (services/exchange): balance check, fiat
amount computed with Decimal `times` the rate and `toFixed(2)`, and a
pending exchange record created.  (The user-existence check is outside
the ledger model.) -/
def processExchangeRequest (txs : List Transaction) (chatId : String)
    (amount : ℤ) (fiatType : String) (rates : ExchangeRates) :
    ExchangeRequestResult × List Transaction :=
  let balance := getUserBalance txs chatId
  if amount > balance then (.insufficientBalance, txs)
  else
    let rate := pickRate rates fiatType
    let fiatAmount := roundHalfUpAt 2 (microToRat amount * rate)
    let newTx : Transaction :=
      { id := nextId txs
        txType := .exchange
        chatId := chatId
        amount := amount
        fiatAmount := some fiatAmount
        fiatType := some fiatType }
    (.ok newTx.id fiatAmount, txs ++ [newTx])

/-- Outcome of the administrative exchange decisions. -/
inductive AdminExchangeResult
  | notFound
  | notExchange
  | notPending (current : TxStatus)
  | ok
deriving DecidableEq, BEq

/-- Store lookup by primary key. -/
def findById (txs : List Transaction) (id : ℕ) : Option Transaction :=
  txs.find? fun t => t.id == id

/-- Persist a mutated row back by primary key. -/
def updateById (txs : List Transaction) (id : ℕ) (t : Transaction) : List Transaction :=
  txs.map fun u => if u.id == id then t else u

/-- completeExchangeTransaction (services/exchange): guards on
existence, type and pending status, then one save setting completed,
completedAt and, when nonempty, the admin notes. -/
def completeExchangeTransaction (txs : List Transaction) (id : ℕ)
    (adminNotes : String) : AdminExchangeResult × List Transaction :=
  match findById txs id with
  | none => (.notFound, txs)
  | some t =>
    if t.txType != .exchange then (.notExchange, txs)
    else if t.status != .pending then (.notPending t.status, txs)
    else
      let t1 : Transaction :=
        { t with
          status := .completed
          completedAt := true
          adminNotes := if adminNotes != "" then some adminNotes else t.adminNotes }
      (.ok, updateById txs id t1)

/-- The /reject_exchange handler (bots/admin-bot): same guards, then
one save setting failed and recording the rejection reason in the
admin notes (the handler always supplies a nonempty reason, defaulting
to a fixed sentence). -/
def rejectExchangeTransaction (txs : List Transaction) (id : ℕ)
    (reason : String) : AdminExchangeResult × List Transaction :=
  match findById txs id with
  | none => (.notFound, txs)
  | some t =>
    if t.txType != .exchange then (.notExchange, txs)
    else if t.status != .pending then (.notPending t.status, txs)
    else
      let t1 : Transaction :=
        { t with status := .failed, adminNotes := some reason }
      (.ok, updateById txs id t1)

/-! ## Formatting and parsing (utils/format, utils/validation) -/

/-- formatUSDT (utils/format): Decimal toFixed(6), rendering with
exactly six fractional digits; the value of the rendered string. -/
def formatUSDT (q : ℚ) : ℚ :=
  roundHalfUpAt 6 q

/-- schemas.amount (utils/validation): a parsed amount is accepted only
when strictly positive; the input is the value the decimal string
denotes (malformed strings are outside the value model). -/
def amountParse (q : ℚ) : Option ℚ :=
  if 0 < q then some q else none

/-! ## Binary floating point model (models/ExchangeRate: convertToFiat)

convertToFiat is the one money path computed with JavaScript numbers:
`(parseFloat(amount) * parseFloat(rate)).toFixed(2)`.  IEEE-754
binary64 values are modelled exactly as the rationals they denote;
`nearestDouble` rounds a rational to the nearest double (ties to even),
ignoring overflow and subnormals, which the amounts here never reach. -/

/-- Round a rational to the nearest integer, ties to even — the IEEE
default rounding of the significand. -/
def roundTiesEven (q : ℚ) : ℤ :=
  let f := ⌊q⌋
  let r := q - (f : ℚ)
  if r < 1 / 2 then f
  else if 1 / 2 < r then f + 1
  else if f % 2 = 0 then f else f + 1

/-- Binary exponent search: doubles a subunit value or halves a value
of two or more until it lies in the binade of one, accumulating the
exponent.  Fuel 1200 covers the whole double range. -/
def binExp : ℕ → ℚ → ℤ → ℤ
  | 0, _, e => e
  | fuel + 1, q, e =>
    if q < 1 then binExp fuel (2 * q) (e - 1)
    else if 2 ≤ q then binExp fuel (q / 2) (e + 1)
    else e

/-- Nearest IEEE-754 binary64 value of a rational (normal range). -/
def nearestDouble (q : ℚ) : ℚ :=
  if q = 0 then 0
  else
    let a := |q|
    let e := binExp 1200 a 0
    let m := roundTiesEven (a * (2 : ℚ) ^ (52 - e))
    let v := (m : ℚ) * (2 : ℚ) ^ (e - 52)
    if q < 0 then -v else v

/-- Double multiplication: exact product, rounded back to a double. -/
def doubleMul (a b : ℚ) : ℚ :=
  nearestDouble (a * b)

/-- Number.prototype.toFixed(2): the closest hundredth of the exact
binary value, ties picking the larger numerator. -/
def jsToFixed2 (v : ℚ) : ℚ :=
  (⌊v * 100 + 1 / 2⌋ : ℚ) / 100

/-- ExchangeRate.convertToFiat (models/ExchangeRate): parseFloat on the
amount and the stored rate, binary64 product, toFixed(2). -/
def convertToFiat (rates : ExchangeRates) (amount : ℚ) (fiatType : String) : ℚ :=
  let rate := pickRate rates fiatType
  jsToFixed2 (doubleMul (nearestDouble amount) (nearestDouble rate))

/-- Modelled from the spec: the fiat value of a token amount is the
exact decimal product of the amount and the current rate, rounded
half-up to two fractional digits, with no intermediate floating-point
value. -/
def specExactFiat (amount rate : ℚ) : ℚ :=
  roundHalfUpAt 2 (amount * rate)

/-! ## General lemmas -/

theorem foldl_add_amount (txs : List Transaction) (init : ℤ) :
    txs.foldl (fun s t => s + t.amount) init = init + (txs.map fun t => t.amount).sum := by
  induction txs generalizing init with
  | nil => simp
  | cons t ts ih =>
    simp only [List.foldl_cons, List.map_cons, List.sum_cons, ih]
    ring

theorem sumAmounts_eq_map_sum (txs : List Transaction) :
    sumAmounts txs = (txs.map fun t => t.amount).sum := by
  simp [sumAmounts, foldl_add_amount]

theorem roundHalfUpAt_micro (q : ℚ) (h : IsMicro q) : roundHalfUpAt 6 q = q := by
  obtain ⟨m, rfl⟩ := h
  unfold roundHalfUpAt
  have h10 : ((10 : ℚ) ^ (6 : ℕ)) = (1000000 : ℚ) := by norm_num
  rw [h10]
  have harg : (m : ℚ) / 1000000 * 1000000 + 1 / 2 = (m : ℚ) + 1 / 2 := by
    field_simp
  rw [harg]
  have hfloor : ⌊(m : ℚ) + 1 / 2⌋ = m := by
    rw [Int.floor_eq_iff]
    constructor
    · linarith
    · linarith
  rw [hfloor]

theorem getUserBalance_eq_max (txs : List Transaction) (c : String) :
    getUserBalance txs c = max 0 (specRawBalance txs c) := by
  unfold getUserBalance
  simp only [sumAmounts_eq_map_sum]
  have hbal :
      ((txs.filter fun t =>
        t.chatId == c && t.txType == .deposit && t.status == .completed).map
          (fun t => t.amount)).sum -
      ((txs.filter fun t =>
        t.chatId == c && t.txType == .withdrawal &&
          (t.status == .completed || t.status == .pending ||
            t.status == .processing)).map (fun t => t.amount)).sum -
      ((txs.filter fun t =>
        t.chatId == c && t.txType == .exchange &&
          (t.status == .completed || t.status == .pending ||
            t.status == .processing)).map (fun t => t.amount)).sum =
        specRawBalance txs c := rfl
  rw [hbal]
  by_cases hlt : specRawBalance txs c < 0
  · rw [if_pos hlt, max_eq_left hlt.le]
  · rw [if_neg hlt, max_eq_right (not_lt.mp hlt)]

theorem specRawBalance_append_deposit (txs : List Transaction) (c : String)
    (d : Transaction) (hc : d.chatId = c) (hty : d.txType = .deposit)
    (hst : d.status = .completed) :
    specRawBalance (txs ++ [d]) c = specRawBalance txs c + d.amount := by
  unfold specRawBalance specCompletedDeposits specOutgoingWithdrawals
    specOutgoingExchanges
  have hd1 : (d.chatId == c && d.txType == TxType.deposit &&
      d.status == TxStatus.completed) = true := by
    rw [hc, hty, hst]; simp
  have hd2 : (d.chatId == c && d.txType == TxType.withdrawal &&
      (d.status == TxStatus.completed || d.status == TxStatus.pending ||
        d.status == TxStatus.processing)) = false := by
    rw [hty]; simp
  have hd3 : (d.chatId == c && d.txType == TxType.exchange &&
      (d.status == TxStatus.completed || d.status == TxStatus.pending ||
        d.status == TxStatus.processing)) = false := by
    rw [hty]; simp
  simp [List.filter_append, List.filter_cons, hd1, hd2, hd3]
  ring

theorem lookup_eraseRequest (m : List (String × DepositRequest)) (c : String) :
    (eraseRequest m c).lookup c = none := by
  induction m with
  | nil => rfl
  | cons p rest ih =>
    by_cases hp : p.1 = c
    · have : eraseRequest (p :: rest) c = eraseRequest rest c := by
        simp [eraseRequest, List.filter_cons, hp]
      rw [this, ih]
    · have hkeep : eraseRequest (p :: rest) c = p :: eraseRequest rest c := by
        simp [eraseRequest, List.filter_cons, hp]
      rw [hkeep]
      have hne : (c == p.1) = false := by
        simp [beq_iff_eq]
        exact fun hcp => hp hcp.symm
      simpa [List.lookup, hne] using ih

/-! ## Claim theorems

Concrete micro-USDT values: 50.4 USDT = 50400000, 50 USDT = 50000000,
0.4 USDT = 400000, 10.1234 USDT = 10123400, 10.1235 USDT = 10123500. -/

/-- C1: for every account, the computed balance equals the sum of the
amounts of its Completed deposit records minus the sum of the amounts
of its withdrawal records with status in the set of Completed,
Processing and Pending, minus the sum of the amounts of its exchange
records with status in that same set, clamped to zero whenever the raw
computation would be negative. -/
theorem c1_balance_rule (txs : List Transaction) (c : String) :
    getUserBalance txs c =
      max 0 (specCompletedDeposits txs c - specOutgoingWithdrawals txs c -
        specOutgoingExchanges txs c) :=
  getUserBalance_eq_max txs c

/-- C2: code_bug evidence.  The txHash column carries no uniqueness
constraint and the /confirm handler performs no duplicate check, so
verifying the same chain reference for two different accounts whose
open intents expect the same amount (10.1234 USDT) yields two Completed
transaction records sharing that reference, both verifications
reporting success — there is no DuplicateSettlement failure. -/
theorem c2_duplicate_reference_double_credit :
    (confirmHandler ⟨"usdt", "dep", 5⟩
        ⟨some ⟨100, [⟨"Transfer", "usdt", "alice", "dep", 10123400⟩]⟩, 106⟩
        true "0xh" "A" 1000
        ⟨[("A", ⟨10123400, 0⟩), ("B", ⟨10123400, 0⟩)], []⟩).1 =
      .ok 1 10123400 ∧
    (confirmHandler ⟨"usdt", "dep", 5⟩
        ⟨some ⟨100, [⟨"Transfer", "usdt", "alice", "dep", 10123400⟩]⟩, 106⟩
        true "0xh" "B" 2000
        (confirmHandler ⟨"usdt", "dep", 5⟩
          ⟨some ⟨100, [⟨"Transfer", "usdt", "alice", "dep", 10123400⟩]⟩, 106⟩
          true "0xh" "A" 1000
          ⟨[("A", ⟨10123400, 0⟩), ("B", ⟨10123400, 0⟩)], []⟩).2).1 =
      .ok 2 10123400 ∧
    ((confirmHandler ⟨"usdt", "dep", 5⟩
        ⟨some ⟨100, [⟨"Transfer", "usdt", "alice", "dep", 10123400⟩]⟩, 106⟩
        true "0xh" "B" 2000
        (confirmHandler ⟨"usdt", "dep", 5⟩
          ⟨some ⟨100, [⟨"Transfer", "usdt", "alice", "dep", 10123400⟩]⟩, 106⟩
          true "0xh" "A" 1000
          ⟨[("A", ⟨10123400, 0⟩), ("B", ⟨10123400, 0⟩)], []⟩).2).2.transactions.filter
        fun t => t.txHash == some "0xh" && t.status == TxStatus.completed).length = 2 := by
  decide

/-- C3: code_bug evidence.  processWithdrawal never inspects the prior
status: called on a record that is already Completed it sets the record
to Processing again, resubmits the transfer, and returns success — it
does not fail with InvalidState, so processing the same record twice
submits the payout twice. -/
theorem c3_no_pending_guard_on_reprocessing :
    (processWithdrawal (allOk "0xw1")
        { id := 1, txType := .withdrawal, chatId := "A", amount := 50000000,
          walletAddress := some "w", fee := some 400000 }).1 =
      .success "0xw1" ∧
    (processWithdrawal (allOk "0xw1")
        { id := 1, txType := .withdrawal, chatId := "A", amount := 50000000,
          walletAddress := some "w", fee := some 400000 }).2.status =
      .completed ∧
    (processWithdrawal (allOk "0xw2")
        (processWithdrawal (allOk "0xw1")
          { id := 1, txType := .withdrawal, chatId := "A", amount := 50000000,
            walletAddress := some "w", fee := some 400000 }).2).1 =
      .success "0xw2" ∧
    (processWithdrawal (allOk "0xw2")
        (processWithdrawal (allOk "0xw1")
          { id := 1, txType := .withdrawal, chatId := "A", amount := 50000000,
            walletAddress := some "w", fee := some 400000 }).2).2.status =
      .completed := by
  decide

/-- C4 counterexample: a withdrawal of 50 with fee 0.4 against a
balance of exactly 50.4 succeeds, but the resulting computed balance is
0.4 USDT (400000 micro), not 0 — the balance fold subtracts only the
withdrawal amount and never the fee. -/
theorem c4_counterexample :
    (withdrawHandler (allOk "0xw")
        [{ id := 1, txType := .deposit, chatId := "A", amount := 50400000,
           status := .completed, completedAt := true }] "A" 50000000 "w" 400000).1 =
      .ok "0xw" ∧
    getUserBalance
      (withdrawHandler (allOk "0xw")
        [{ id := 1, txType := .deposit, chatId := "A", amount := 50400000,
           status := .completed, completedAt := true }] "A" 50000000 "w" 400000).2 "A" =
      400000 ∧
    getUserBalance
      (withdrawHandler (allOk "0xw")
        [{ id := 1, txType := .deposit, chatId := "A", amount := 50400000,
           status := .completed, completedAt := true }] "A" 50000000 "w" 400000).2 "A" ≠
      0 := by
  decide

/-- C4 amended: a withdrawal request of amount 50 with fee 0.4 against
balance 50.3 fails with InsufficientBalance (50.4 needed) and stores
nothing, while against balance exactly 50.4 it succeeds; the balance
check accounts for amount plus fee, but the subsequent computed balance
subtracts only the amount, leaving 0.4 USDT. -/
theorem c4_withdrawal_fee_accounting :
    (withdrawHandler (allOk "0xw")
        [{ id := 1, txType := .deposit, chatId := "A", amount := 50300000,
           status := .completed, completedAt := true }] "A" 50000000 "w" 400000).1 =
      .insufficientBalance ∧
    (withdrawHandler (allOk "0xw")
        [{ id := 1, txType := .deposit, chatId := "A", amount := 50300000,
           status := .completed, completedAt := true }] "A" 50000000 "w" 400000).2 =
      [{ id := 1, txType := .deposit, chatId := "A", amount := 50300000,
         status := .completed, completedAt := true }] ∧
    (withdrawHandler (allOk "0xw")
        [{ id := 1, txType := .deposit, chatId := "A", amount := 50400000,
           status := .completed, completedAt := true }] "A" 50000000 "w" 400000).1 =
      .ok "0xw" ∧
    getUserBalance
      (withdrawHandler (allOk "0xw")
        [{ id := 1, txType := .deposit, chatId := "A", amount := 50400000,
           status := .completed, completedAt := true }] "A" 50000000 "w" 400000).2 "A" =
      400000 := by
  decide

/-- C5: under an open fresh intent and a sufficiently-confirmed receipt
whose first USDT Transfer pays the deposit address, the transferred
amount is compared to the intent's expected amount by exact decimal
equality: a mismatch fails with AmountMismatch and creates no
transaction record (state unchanged), while an exactly equal amount
succeeds, appends one Completed deposit record for the expected
amount, and — when the prior raw balance is nonnegative and the amount
nonnegative — raises the computed balance by exactly that amount. -/
theorem c5_exact_amount_equality
    (cfg : ChainConfig) (chain : ChainState) (st : BotState)
    (txHash chatId : String) (now : ℤ) (req : DepositRequest)
    (rec : Receipt) (ev : TransferLog)
    (hreq : st.depositRequests.lookup chatId = some req)
    (hfresh : now - req.timestamp ≤ 24 * 60 * 60 * 1000)
    (hrec : chain.receipt = some rec)
    (hconf : cfg.minConfirmations ≤ chain.currentBlock - rec.blockNumber)
    (hev : (rec.logs.filter fun l =>
      l.name == "Transfer" && l.address == cfg.usdtContractAddress).head? = some ev)
    (hto : ev.toAddr = cfg.depositAddress) :
    (ev.value ≠ req.amount →
      confirmHandler cfg chain true txHash chatId now st =
        (.verificationFailed (.amountMismatch req.amount ev.value), st)) ∧
    (ev.value = req.amount →
      confirmHandler cfg chain true txHash chatId now st =
        (.ok (nextId st.transactions) req.amount,
          { depositRequests := eraseRequest st.depositRequests chatId
            transactions := st.transactions ++
              [{ id := nextId st.transactions, txType := .deposit, chatId := chatId,
                 amount := req.amount, txHash := some txHash, status := .completed,
                 completedAt := true,
                 confirmations := some (chain.currentBlock - rec.blockNumber) }] }) ∧
      (0 ≤ specRawBalance st.transactions chatId → 0 ≤ req.amount →
        getUserBalance
            (st.transactions ++
              [{ id := nextId st.transactions, txType := .deposit, chatId := chatId,
                 amount := req.amount, txHash := some txHash, status := .completed,
                 completedAt := true,
                 confirmations := some (chain.currentBlock - rec.blockNumber) }])
            chatId =
          getUserBalance st.transactions chatId + req.amount)) := by
  constructor
  · intro hne
    have hver : verifyDepositTransaction cfg chain req.amount =
        .amountMismatch req.amount ev.value := by
      simp [verifyDepositTransaction, hrec, not_lt.mpr hconf, hev, hto,
        bne_iff_ne, hne]
    simp [confirmHandler, hreq, not_lt.mpr hfresh, hver]
    linarith
  · intro heq
    have hver : verifyDepositTransaction cfg chain req.amount =
        .ok req.amount (chain.currentBlock - rec.blockNumber) := by
      simp [verifyDepositTransaction, hrec, not_lt.mpr hconf, hev, hto, heq]
    refine ⟨?_, ?_⟩
    · simp [confirmHandler, hreq, not_lt.mpr hfresh, hver]
      linarith
    · intro hraw hamt
      rw [getUserBalance_eq_max, getUserBalance_eq_max,
        specRawBalance_append_deposit _ _ _ rfl rfl rfl]
      rw [max_eq_right hraw, max_eq_right (by linarith)]

/-- Witness for C5: the spec scenario.  An intent for 10.1234 USDT with
a 6-confirmation transfer of 10.1235 fails with AmountMismatch and
leaves the state unchanged; the same intent with a transfer of exactly
10.1234 succeeds and the balance of the fresh account becomes the old
balance plus 10.1234 USDT. -/
theorem c5_exact_amount_equality_witness :
    (confirmHandler ⟨"usdt", "dep", 5⟩
        ⟨some ⟨100, [⟨"Transfer", "usdt", "alice", "dep", 10123500⟩]⟩, 106⟩
        true "0xh" "A" 1000 ⟨[("A", ⟨10123400, 0⟩)], []⟩ =
      (.verificationFailed (.amountMismatch 10123400 10123500),
        ⟨[("A", ⟨10123400, 0⟩)], []⟩)) ∧
    getUserBalance
        ([] ++
          [{ id := nextId [], txType := .deposit, chatId := "A",
             amount := 10123400, txHash := some "0xh", status := .completed,
             completedAt := true, confirmations := some (106 - 100) }]) "A" =
      getUserBalance [] "A" + 10123400 := by
  constructor
  · exact (c5_exact_amount_equality ⟨"usdt", "dep", 5⟩
      ⟨some ⟨100, [⟨"Transfer", "usdt", "alice", "dep", 10123500⟩]⟩, 106⟩
      ⟨[("A", ⟨10123400, 0⟩)], []⟩ "0xh" "A" 1000 ⟨10123400, 0⟩
      ⟨100, [⟨"Transfer", "usdt", "alice", "dep", 10123500⟩]⟩
      ⟨"Transfer", "usdt", "alice", "dep", 10123500⟩
      (by decide) (by decide) (by decide) (by decide) (by decide) (by decide)).1
      (by decide)
  · exact (((c5_exact_amount_equality ⟨"usdt", "dep", 5⟩
      ⟨some ⟨100, [⟨"Transfer", "usdt", "alice", "dep", 10123400⟩]⟩, 106⟩
      ⟨[("A", ⟨10123400, 0⟩)], []⟩ "0xh" "A" 1000 ⟨10123400, 0⟩
      ⟨100, [⟨"Transfer", "usdt", "alice", "dep", 10123400⟩]⟩
      ⟨"Transfer", "usdt", "alice", "dep", 10123400⟩
      (by decide) (by decide) (by decide) (by decide) (by decide) (by decide)).2
      (by decide)).2) (by decide) (by decide)

/-- Binary exponent search is immediate on the binade of one. -/
theorem binExp_unit (fuel : ℕ) (q : ℚ) (e : ℤ) (h1 : ¬q < 1) (h2 : ¬2 ≤ q) :
    binExp fuel q e = e := by
  cases fuel with
  | zero => rfl
  | succ f => simp [binExp, h1, h2]

/-- Nearest double of a value in the binade of one. -/
theorem nearestDouble_unit (q : ℚ) (h0 : 1 ≤ q) (h2 : q < 2) :
    nearestDouble q = (roundTiesEven (q * 2 ^ 52) : ℚ) / 2 ^ 52 := by
  have hq0 : ¬q = 0 := by intro h; rw [h] at h0; norm_num at h0
  have hqneg : ¬q < 0 := by linarith
  have habs : |q| = q := abs_of_pos (by linarith)
  have hbe : binExp 1200 q 0 = 0 := binExp_unit 1200 q 0 (by linarith) (by linarith)
  simp only [nearestDouble, habs, hbe, if_neg hq0, if_neg hqneg]
  norm_num
  ring

/-- Rounding a value whose fractional part is below one half truncates. -/
theorem roundTiesEven_of_floor (q : ℚ) (n : ℤ) (hlo : (n : ℚ) ≤ q)
    (hhi : q < (n : ℚ) + 1 / 2) : roundTiesEven q = n := by
  have hfl : ⌊q⌋ = n := by
    rw [Int.floor_eq_iff]
    exact ⟨hlo, by linarith⟩
  unfold roundTiesEven
  rw [hfl, if_pos (by linarith)]

/-- C6 counterexample: ExchangeRate.convertToFiat computes through
binary doubles; at amount 1.005 with the default USD rate 1 it returns
1.00, while the exact decimal product rounded half-up to two digits is
1.01 — so the conversion is not the exact decimal product and an
intermediate floating-point value does exist. -/
theorem c6_counterexample :
    convertToFiat defaultRates (201 / 200) "USD" = 1 ∧
    specExactFiat (201 / 200) 1 = 101 / 100 ∧
    convertToFiat defaultRates (201 / 200) "USD" ≠ specExactFiat (201 / 200) 1 := by
  have hrate : pickRate defaultRates "USD" = 1 := by
    simp [pickRate, defaultRates]
  have hnd1 : nearestDouble 1 = 1 := by
    rw [nearestDouble_unit 1 le_rfl (by norm_num),
      roundTiesEven_of_floor (1 * 2 ^ 52) 4503599627370496 (by norm_num) (by norm_num)]
    norm_num
  have hnda : nearestDouble (201 / 200) = 4526117625507348 / 2 ^ 52 := by
    rw [nearestDouble_unit (201 / 200) (by norm_num) (by norm_num),
      roundTiesEven_of_floor ((201 / 200) * 2 ^ 52) 4526117625507348 (by norm_num)
        (by norm_num)]
    norm_num
  have hmul : doubleMul (4526117625507348 / 2 ^ 52) 1 = 4526117625507348 / 2 ^ 52 := by
    unfold doubleMul
    rw [mul_one,
      nearestDouble_unit (4526117625507348 / 2 ^ 52) (by norm_num) (by norm_num),
      roundTiesEven_of_floor ((4526117625507348 / 2 ^ 52) * 2 ^ 52) 4526117625507348
        (by norm_num) (by norm_num)]
    norm_num
  have hfix : jsToFixed2 ((4526117625507348 : ℚ) / 2 ^ 52) = 1 := by
    unfold jsToFixed2
    have hfl : ⌊(4526117625507348 : ℚ) / 2 ^ 52 * 100 + 1 / 2⌋ = 100 := by
      rw [Int.floor_eq_iff]
      constructor
      · norm_num
      · norm_num
    rw [hfl]
    norm_num
  have hcf : convertToFiat defaultRates (201 / 200) "USD" = 1 := by
    simp only [convertToFiat, hrate]
    rw [hnd1, hnda, hmul, hfix]
  have hspec : specExactFiat (201 / 200) 1 = 101 / 100 := by
    unfold specExactFiat roundHalfUpAt
    have hfl : ⌊(201 / 200 : ℚ) * 1 * 10 ^ 2 + 1 / 2⌋ = 101 := by
      rw [Int.floor_eq_iff]
      constructor
      · norm_num
      · norm_num
    rw [hfl]
    norm_num
  refine ⟨hcf, hspec, ?_⟩
  rw [hcf, hspec]
  norm_num

/-- C6 amended: the live exchange path computes the fiat amount with
exact decimal arithmetic — for a sufficiently funded account,
processExchangeRequest stores exactly the decimal product of the token
amount and the selected rate rounded half-up to two fractional digits;
ExchangeRate.convertToFiat, however, goes through binary floating
point and deviates from that exact product (see the counterexample). -/
theorem c6_exchange_fiat_exact_decimal
    (txs : List Transaction) (chatId : String) (amount : ℤ)
    (fiatType : String) (rates : ExchangeRates)
    (h : amount ≤ getUserBalance txs chatId) :
    processExchangeRequest txs chatId amount fiatType rates =
      (.ok (nextId txs) (specExactFiat (microToRat amount) (pickRate rates fiatType)),
        txs ++
          [{ id := nextId txs, txType := .exchange, chatId := chatId,
             amount := amount,
             fiatAmount := some (specExactFiat (microToRat amount)
               (pickRate rates fiatType)),
             fiatType := some fiatType }]) := by
  unfold processExchangeRequest
  rw [if_neg (not_lt.mpr h)]
  rfl

/-- Witness for C6: a 10 USDT exchange to UAH against a 100 USDT
balance succeeds and stores the exact decimal fiat product. -/
theorem c6_exchange_fiat_exact_decimal_witness :
    processExchangeRequest
        [{ id := 1, txType := .deposit, chatId := "A", amount := 100000000,
           status := .completed, completedAt := true }] "A" 10000000 "UAH"
        defaultRates =
      (.ok
        (nextId
          [{ id := 1, txType := .deposit, chatId := "A", amount := 100000000,
             status := .completed, completedAt := true }])
        (specExactFiat (microToRat 10000000) (pickRate defaultRates "UAH")),
        [{ id := 1, txType := .deposit, chatId := "A", amount := 100000000,
           status := .completed, completedAt := true }] ++
          [{ id := nextId
               [{ id := 1, txType := .deposit, chatId := "A", amount := 100000000,
                  status := .completed, completedAt := true }],
             txType := .exchange, chatId := "A", amount := 10000000,
             fiatAmount := some (specExactFiat (microToRat 10000000)
               (pickRate defaultRates "UAH")),
             fiatType := some "UAH" }]) :=
  c6_exchange_fiat_exact_decimal _ "A" 10000000 "UAH" defaultRates (by decide)

/-- C7: an intent opened at time T is unusable strictly after T plus 24
hours — the /confirm handler fails on the expiry branch before any
chain interaction and lazily deletes the expired intent on that read,
after which the map lookup finds nothing. -/
theorem c7_intent_expiry
    (cfg : ChainConfig) (chain : ChainState) (txHash chatId : String)
    (now : ℤ) (st : BotState) (req : DepositRequest)
    (hreq : st.depositRequests.lookup chatId = some req)
    (hexp : now - req.timestamp > 24 * 60 * 60 * 1000) :
    confirmHandler cfg chain true txHash chatId now st =
      (.requestExpired,
        { st with depositRequests := eraseRequest st.depositRequests chatId }) ∧
    (eraseRequest st.depositRequests chatId).lookup chatId = none := by
  refine ⟨?_, lookup_eraseRequest _ _⟩
  simp only [confirmHandler, Bool.not_true, Bool.false_eq_true, if_false, hreq]
  rw [if_pos hexp]

/-- Witness for C7: an intent opened at time 0 is expired at time
86400001 milliseconds (24 hours plus one), and the read deletes it. -/
theorem c7_intent_expiry_witness :
    confirmHandler ⟨"usdt", "dep", 5⟩ ⟨none, 0⟩ true "0xh" "A" 86400001
        ⟨[("A", ⟨10123400, 0⟩)], []⟩ =
      (.requestExpired, ⟨eraseRequest [("A", ⟨10123400, 0⟩)] "A", []⟩) ∧
    (eraseRequest [("A", ⟨10123400, 0⟩)] "A").lookup "A" = none :=
  c7_intent_expiry ⟨"usdt", "dep", 5⟩ ⟨none, 0⟩ "0xh" "A" 86400001
    ⟨[("A", ⟨10123400, 0⟩)], []⟩ ⟨10123400, 0⟩ (by decide) (by decide)

/-- C8 counterexample: the round trip fails at zero — formatUSDT
renders 0 as the six-digit zero string but schemas.amount rejects any
non-positive value, so parsing the rendering fails instead of
returning 0; it also fails on values needing rounding, where parsing
returns the half-up-rounded value rather than the original. -/
theorem c8_counterexample :
    amountParse (formatUSDT 0) = none ∧
    amountParse (formatUSDT 0) ≠ some 0 ∧
    amountParse (formatUSDT (1234565 / 10000000)) = some (123457 / 1000000) ∧
    ((123457 : ℚ) / 1000000) ≠ 1234565 / 10000000 := by
  have h0 : formatUSDT 0 = 0 := by
    unfold formatUSDT roundHalfUpAt
    have hfl : ⌊(0 : ℚ) * 10 ^ 6 + 1 / 2⌋ = 0 := by
      rw [Int.floor_eq_iff]
      constructor
      · norm_num
      · norm_num
    rw [hfl]
    norm_num
  have h1 : formatUSDT (1234565 / 10000000) = 123457 / 1000000 := by
    unfold formatUSDT roundHalfUpAt
    have hfl : ⌊(1234565 / 10000000 : ℚ) * 10 ^ 6 + 1 / 2⌋ = 123457 := by
      rw [Int.floor_eq_iff]
      constructor
      · norm_num
      · norm_num
    rw [hfl]
    norm_num
  refine ⟨?_, ?_, ?_, by norm_num⟩
  · rw [h0]
    unfold amountParse
    norm_num
  · rw [h0]
    simp [amountParse]
  · rw [h1]
    unfold amountParse
    rw [if_pos (by norm_num)]

/-- C8 amended: parse after format returns the original amount for
every strictly positive amount on the six-fractional-digit grid, and
the formatted rendering always lies on that grid (exactly six digits,
rounded half-up); zero itself fails the round trip because the parser
rejects non-positive amounts, and off-grid values come back rounded. -/
theorem c8_roundtrip_positive_micro (q : ℚ) (hpos : 0 < q) (hm : IsMicro q) :
    amountParse (formatUSDT q) = some q ∧ IsMicro (formatUSDT q) := by
  have hfmt : formatUSDT q = q := roundHalfUpAt_micro q hm
  rw [hfmt]
  exact ⟨by unfold amountParse; rw [if_pos hpos], hm⟩

/-- Witness for C8 at 10.1234 USDT. -/
theorem c8_roundtrip_positive_micro_witness :
    amountParse (formatUSDT (101234 / 10000)) = some (101234 / 10000) ∧
    IsMicro (formatUSDT (101234 / 10000)) :=
  c8_roundtrip_positive_micro (101234 / 10000) (by norm_num)
    ⟨10123400, by norm_num⟩

/-- C9: processWithdrawal never fails silently — whenever it returns a
failure the stored record is Failed with the reason recorded in the
admin-note field, and whenever it returns success the record is
Completed carrying the returned chain reference; the caller always
receives one of these two explicit results. -/
theorem c9_withdrawal_failure_recorded :
    (∀ (ops : ChainOps) (t : Transaction) (m : String) (t1 : Transaction),
      processWithdrawal ops t = (.failure m, t1) →
      t1.status = .failed ∧ t1.adminNotes = some ("Failed: " ++ m)) ∧
    (∀ (ops : ChainOps) (t : Transaction) (h : String) (t1 : Transaction),
      processWithdrawal ops t = (.success h, t1) →
      t1.status = .completed ∧ t1.txHash = some h ∧ t1.completedAt = true) := by
  constructor
  · intro ops t m t1 hpt
    unfold processWithdrawal at hpt
    repeat' split at hpt
    all_goals simp only [withdrawFail, Prod.mk.injEq] at hpt
    all_goals obtain ⟨h1, h2⟩ := hpt
    all_goals
      first
      | exact WithdrawOutcome.noConfusion h1
      | (injection h1 with h1
         subst h1
         subst h2
         exact ⟨rfl, rfl⟩)
  · intro ops t h t1 hpt
    unfold processWithdrawal at hpt
    repeat' split at hpt
    all_goals simp only [withdrawFail, Prod.mk.injEq] at hpt
    all_goals obtain ⟨h1, h2⟩ := hpt
    all_goals
      first
      | exact WithdrawOutcome.noConfusion h1
      | (injection h1 with h1
         subst h1
         subst h2
         exact ⟨rfl, rfl, rfl⟩)

/-- Witness for C9: a withdrawal whose mining wait throws ends Failed
with the reason recorded, and the all-success run ends Completed. -/
theorem c9_withdrawal_failure_recorded_witness :
    ((processWithdrawal
        ⟨.ok (), .ok (), .ok (), .ok "0xw", .error "boom"⟩
        { id := 1, txType := .withdrawal, chatId := "A", amount := 50000000,
          walletAddress := some "w", fee := some 400000 }).2.status = .failed ∧
     (processWithdrawal
        ⟨.ok (), .ok (), .ok (), .ok "0xw", .error "boom"⟩
        { id := 1, txType := .withdrawal, chatId := "A", amount := 50000000,
          walletAddress := some "w", fee := some 400000 }).2.adminNotes =
       some ("Failed: " ++ "boom")) ∧
    ((processWithdrawal (allOk "0xw")
        { id := 1, txType := .withdrawal, chatId := "A", amount := 50000000,
          walletAddress := some "w", fee := some 400000 }).2.status = .completed ∧
     (processWithdrawal (allOk "0xw")
        { id := 1, txType := .withdrawal, chatId := "A", amount := 50000000,
          walletAddress := some "w", fee := some 400000 }).2.txHash = some "0xw" ∧
     (processWithdrawal (allOk "0xw")
        { id := 1, txType := .withdrawal, chatId := "A", amount := 50000000,
          walletAddress := some "w", fee := some 400000 }).2.completedAt = true) :=
  ⟨c9_withdrawal_failure_recorded.1
      ⟨.ok (), .ok (), .ok (), .ok "0xw", .error "boom"⟩
      { id := 1, txType := .withdrawal, chatId := "A", amount := 50000000,
        walletAddress := some "w", fee := some 400000 } "boom" _ (by decide),
   c9_withdrawal_failure_recorded.2 (allOk "0xw")
      { id := 1, txType := .withdrawal, chatId := "A", amount := 50000000,
        walletAddress := some "w", fee := some 400000 } "0xw" _ (by decide)⟩

/-- C10: the administrative exchange decisions mutate a record only
when it exists, is an exchange, and is Pending; in every other case
they return an error and leave the store untouched.  When they do act,
completion sets Completed together with completedAt (and the notes when
nonempty) in one update, and rejection sets Failed together with the
rejection reason in the admin notes in one update. -/
theorem c10_admin_exchange_decision_guards :
    (∀ (txs : List Transaction) (id : ℕ) (notes : String),
      (∀ t, findById txs id = some t → ¬(t.txType = .exchange ∧ t.status = .pending)) →
      (completeExchangeTransaction txs id notes).2 = txs ∧
      (completeExchangeTransaction txs id notes).1 ≠ .ok) ∧
    (∀ (txs : List Transaction) (id : ℕ) (reason : String),
      (∀ t, findById txs id = some t → ¬(t.txType = .exchange ∧ t.status = .pending)) →
      (rejectExchangeTransaction txs id reason).2 = txs ∧
      (rejectExchangeTransaction txs id reason).1 ≠ .ok) ∧
    (∀ (txs : List Transaction) (id : ℕ) (notes : String) (t : Transaction),
      findById txs id = some t → t.txType = .exchange → t.status = .pending →
      completeExchangeTransaction txs id notes =
        (.ok, updateById txs id
          { t with
            status := .completed
            completedAt := true
            adminNotes := if notes != "" then some notes else t.adminNotes })) ∧
    (∀ (txs : List Transaction) (id : ℕ) (reason : String) (t : Transaction),
      findById txs id = some t → t.txType = .exchange → t.status = .pending →
      rejectExchangeTransaction txs id reason =
        (.ok, updateById txs id
          { t with
            status := .failed
            adminNotes := some reason })) := by
  refine ⟨?_, ?_, ?_, ?_⟩
  · intro txs id notes hguard
    unfold completeExchangeTransaction
    cases hf : findById txs id with
    | none => simp
    | some t =>
      have hng := hguard t hf
      by_cases hex : t.txType = .exchange
      · by_cases hpd : t.status = .pending
        · exact absurd ⟨hex, hpd⟩ hng
        · simp [hex, hpd, bne_iff_ne]
      · simp [hex, bne_iff_ne]
  · intro txs id reason hguard
    unfold rejectExchangeTransaction
    cases hf : findById txs id with
    | none => simp
    | some t =>
      have hng := hguard t hf
      by_cases hex : t.txType = .exchange
      · by_cases hpd : t.status = .pending
        · exact absurd ⟨hex, hpd⟩ hng
        · simp [hex, hpd, bne_iff_ne]
      · simp [hex, bne_iff_ne]
  · intro txs id notes t hf hex hpd
    unfold completeExchangeTransaction
    rw [hf]
    simp [hex, hpd]
  · intro txs id reason t hf hex hpd
    unfold rejectExchangeTransaction
    rw [hf]
    simp [hex, hpd]

/-- Witness for C10: completing and rejecting a concrete pending
exchange mutates the row as claimed, and both decisions on an empty
store error and change nothing. -/
theorem c10_admin_exchange_decision_guards_witness :
    completeExchangeTransaction
        [{ id := 1, txType := .exchange, chatId := "A", amount := 10000000,
           fiatAmount := some 10, fiatType := some "USD" }] 1 "done" =
      (.ok, updateById
        [{ id := 1, txType := .exchange, chatId := "A", amount := 10000000,
           fiatAmount := some 10, fiatType := some "USD" }] 1
        { id := 1, txType := .exchange, chatId := "A", amount := 10000000,
          fiatAmount := some 10, fiatType := some "USD", status := .completed,
          completedAt := true,
          adminNotes := if ("done" : String) != "" then some "done" else none }) ∧
    rejectExchangeTransaction
        [{ id := 1, txType := .exchange, chatId := "A", amount := 10000000,
           fiatAmount := some 10, fiatType := some "USD" }] 1 "bad rate" =
      (.ok, updateById
        [{ id := 1, txType := .exchange, chatId := "A", amount := 10000000,
           fiatAmount := some 10, fiatType := some "USD" }] 1
        { id := 1, txType := .exchange, chatId := "A", amount := 10000000,
          fiatAmount := some 10, fiatType := some "USD", status := .failed,
          adminNotes := some "bad rate" }) ∧
    (completeExchangeTransaction [] 1 "x").2 = [] ∧
    (completeExchangeTransaction [] 1 "x").1 ≠ .ok :=
  ⟨c10_admin_exchange_decision_guards.2.2.1
      [{ id := 1, txType := .exchange, chatId := "A", amount := 10000000,
         fiatAmount := some 10, fiatType := some "USD" }] 1 "done"
      { id := 1, txType := .exchange, chatId := "A", amount := 10000000,
        fiatAmount := some 10, fiatType := some "USD" } rfl rfl rfl,
   c10_admin_exchange_decision_guards.2.2.2
      [{ id := 1, txType := .exchange, chatId := "A", amount := 10000000,
         fiatAmount := some 10, fiatType := some "USD" }] 1 "bad rate"
      { id := 1, txType := .exchange, chatId := "A", amount := 10000000,
        fiatAmount := some 10, fiatType := some "USD" } rfl rfl rfl,
   (c10_admin_exchange_decision_guards.1 [] 1 "x"
      (by intro t ht; exact absurd ht (by simp [findById]))).1,
   (c10_admin_exchange_decision_guards.1 [] 1 "x"
      (by intro t ht; exact absurd ht (by simp [findById]))).2⟩

end HiveBot
